import Mathlib

/-!
Verification of the rule-based anomaly-assessment engine of the Robosht
dashboard repository: windowing, trailing-mean aggregation, ordered
threshold-rule evaluation, narrative composition, the external-generator
adapter's fallback chain, and summary condensation, as implemented in
`pages/2_GenAI_Maintenance_Assistant.py`, `pages/4_Aviation_Twin_and_GenAI.py`
and `pages/5_Healthcare_Twin_and_GenAI.py`.

Sensor readings are modelled as rationals, timestamps as integers (minutes).
A pandas mean over an empty series is NaN, and every comparison with NaN is
False in Python; we model a trailing-window mean as an `Option` value, `none`
for the empty window, and threshold comparisons against `none` as `false`.
-/

/-- One row of the sensor log of `2_GenAI_Maintenance_Assistant.py`:
timestamp, station, vibration, temperature, error_code. -/
structure Sample where
  timestamp : Int
  station : Nat
  vibration : Rat
  temperature : Rat
  error_code : String
deriving DecidableEq, Repr

/-- The last `n` elements of a list, like pandas `Series.tail(n)`. -/
def tailN {α : Type} (n : Nat) (xs : List α) : List α :=
  xs.drop (xs.length - n)

/-- `xs.tail(n).mean()`: the arithmetic mean of the last `n` entries,
`none` when the list is empty (pandas yields NaN there). -/
def meanTail (n : Nat) (xs : List Rat) : Option Rat :=
  let t := tailN n xs
  if t.isEmpty then none else some (t.sum / t.length)

/-- Python comparison `v > c` where `v` may be NaN (modelled as `none`):
NaN compares False. -/
def optGt (o : Option Rat) (c : Rat) : Bool :=
  match o with
  | none => false
  | some x => decide (c < x)

/-- Python comparison `v < c` where `v` may be NaN (modelled as `none`):
NaN compares False. -/
def optLt (o : Option Rat) (c : Rat) : Bool :=
  match o with
  | none => false
  | some x => decide (x < c)

/-- The state built up by `rule_based_advice`: the `risk` findings list, the
parallel `actions` list, and the time-to-attention estimate `eta`. -/
structure Advice where
  risk : List String
  actions : List String
  eta : String
deriving DecidableEq, Repr

/-- The decision core of `rule_based_advice` (lines 63-86): trailing-20 means
of vibration and temperature, sequential threshold rules appending
finding/action pairs, first-match-wins for `eta`, whole-window existence
check for the fault code, and the no-anomaly branch when nothing fired. -/
def adviceCore (df_slice : List Sample) : Advice :=
  let v := meanTail 20 (df_slice.map (fun s => s.vibration))
  let t := meanTail 20 (df_slice.map (fun s => s.temperature))
  let a0 : Advice := ⟨[], [], "N/A"⟩
  let a1 :=
    if optGt v 7 then
      ⟨a0.risk ++ ["High vibration indicates possible bearing wear/misalignment."],
       a0.actions ++ ["Reduce RPM by 10%, schedule bearing inspection in 24–48h."],
       "Likely failure within 3–5 days if untreated."⟩
    else a0
  let a2 :=
    if optGt t 85 then
      ⟨a1.risk ++ ["Thermal stress risk (elevated temperature)."],
       a1.actions ++ ["Check coolant/airflow; clean filters; consider load balancing."],
       if a1.eta == "N/A" then "Heat-related degradation possible in 1–2 weeks if persistent."
       else a1.eta⟩
    else a1
  let a3 :=
    if (df_slice.map (fun s => s.error_code)).contains "E42" then
      ⟨a2.risk ++ ["Repeat fault E42 (drive anomaly)."],
       a2.actions ++ ["Run drive diagnostics; verify power quality and cable integrity."],
       a2.eta⟩
    else a2
  if a3.risk.isEmpty then
    ⟨["No critical anomalies in the window."],
     ["Continue normal monitoring; set alert thresholds Vib>7, Temp>85°C."],
     "No imminent failure indicated."⟩
  else a3

/-- Narrative composition of `rule_based_advice` (lines 88-91): the three
labelled sections plus the fixed closing note. -/
def composeMsg (a : Advice) : String :=
  "**Assessment**\n- " ++ String.intercalate ("\n- ") a.risk
    ++ "\n\n**Recommended Actions (next 24–48h)**\n- "
    ++ String.intercalate ("\n- ") a.actions
    ++ "\n\n**Estimated Time-to-Attention**: " ++ a.eta
    ++ "\n\n**Notes**: Capture fix as a reusable component and add to playbook."

/-- `rule_based_advice(df_slice, user_prompt)`: the full advice text. The
`user_prompt` argument is accepted, as in the source, and never used. -/
def rule_based_advice (df_slice : List Sample) (user_prompt : String) : String :=
  composeMsg (adviceCore df_slice)

/-- Maximum of the timestamps present, `df["timestamp"].max()`: `none`
(pandas NaT) on an empty frame. -/
def maxTimestamp (samples : List Sample) : Option Int :=
  match samples with
  | [] => none
  | s :: rest => some (rest.foldl (fun m x => max m x.timestamp) s.timestamp)

/-- Minimum of the timestamps present (the other end of the data span). -/
def minTimestamp (samples : List Sample) : Option Int :=
  match samples with
  | [] => none
  | s :: rest => some (rest.foldl (fun m x => min m x.timestamp) s.timestamp)

/-- The windowing of lines 50-52: `end_time = df["timestamp"].max()`,
`start_time = end_time - window_minutes`, and the boolean-mask filter
`df[(df["timestamp"]>=start_time) & (df["timestamp"]<=end_time)]`. On an
empty frame the max is NaT, every NaT comparison is false, and the filter
returns the empty frame. -/
def window_df (samples : List Sample) (window_minutes : Int) : List Sample :=
  match maxTimestamp samples with
  | none => []
  | some end_time =>
    let start_time := end_time - window_minutes
    samples.filter (fun s =>
      decide (start_time ≤ s.timestamp) && decide (s.timestamp ≤ end_time))

/-- Split a character sequence at every newline, like Python
`text.splitlines()` restricted to `\n` separators (lines are processed
through a blank-line filter afterwards, which absorbs the edge-case
differences between `splitlines` and `split("\n")`). -/
def splitLines : List Char → List (List Char)
  | [] => [[]]
  | c :: rest =>
    if c = '\n' then [] :: splitLines rest
    else
      match splitLines rest with
      | [] => [[c]]
      | l :: ls => (c :: l) :: ls

/-- A line is "bulleted" when, after stripping leading whitespace, it starts
with `-` or `•`: Python `l.lstrip().startswith(("-", "•"))`. -/
def isBulletL (l : List Char) : Bool :=
  match l.dropWhile Char.isWhitespace with
  | [] => false
  | c :: _ => c = '-' || c = '•'

/-- The non-blank lines of a text, in order: Python
`[l for l in text.splitlines() if l.strip()]` (a line survives `strip`
exactly when some character is not whitespace). -/
def nonEmptyLines (text : String) : List (List Char) :=
  (splitLines text.data).filter (fun l => !(l.all Char.isWhitespace))

/-- The collection loop of `make_concise` (lines 143-147): walk the lines,
append each bulleted one, and stop as soon as three are kept. -/
def collectBullets : List (List Char) → List (List Char) → List (List Char)
  | [], keep => keep
  | l :: rest, keep =>
    let keep := if isBulletL l then keep ++ [l] else keep
    if keep.length = 3 then keep else collectBullets rest keep

/-- `make_concise` (lines 138-150) on the condensation path (the `concise`
toggle on): keep the first three bulleted lines, fall back to the first
three non-blank lines when none was kept, and prefix the fixed heading. -/
def make_concise (text : String) : String :=
  let lines := nonEmptyLines text
  let keep := collectBullets lines []
  let keep := if keep.isEmpty then lines.take 3 else keep
  "**Top-line Summary**\n" ++ String.intercalate ("\n") (keep.map String.mk)

/-- What §4.5 of the spec prescribes, written from the spec's words for
comparison with `make_concise`: the first 3 bulleted lines, falling back to
the first 3 non-empty lines whenever FEWER THAN 3 bulleted lines exist. -/
def specCondense (text : String) : String :=
  let lines := nonEmptyLines text
  let bullets := lines.filter isBulletL
  let keep := if bullets.length < 3 then lines.take 3 else bullets.take 3
  "**Top-line Summary**\n" ++ String.intercalate ("\n") (keep.map String.mk)

/-- Outcome of one call into the external library: a successful text, an
`AttributeError` (the modern call shape missing on an old SDK), or any
other exception, carrying its message. -/
inductive CallResult where
  | ok (text : String)
  | attrError (e : String)
  | err (e : String)
deriving DecidableEq, Repr

/-- The environment `llm_advice` runs against: the value of the
`OPENAI_API_KEY` variable (empty when unset), whether `import openai`
raises, and what each of the two call shapes would return. -/
structure LlmEnv where
  apiKey : String
  importExc : Option String
  modernCall : CallResult
  legacyCall : CallResult
deriving DecidableEq, Repr

/-- `llm_advice` (lines 97-133): missing key returns the fixed notice; the
modern v1.x call shape is tried first; an `AttributeError` there falls back
to the 0.x shape; any other exception anywhere — import, either call, or
response access — is caught by the outer handler and converted into the
"LLM call failed" fallback text. -/
def llm_advice (env : LlmEnv) (user_prompt : String) (df_slice : List Sample) :
    String :=
  if env.apiKey = "" then
    "OpenAI key not configured; using rule-based advice instead."
  else
    match env.importExc with
    | some e => "LLM call failed (" ++ e ++ "); using rule-based advice instead."
    | none =>
      match env.modernCall with
      | .ok text => text
      | .err e => "LLM call failed (" ++ e ++ "); using rule-based advice instead."
      | .attrError _ =>
        match env.legacyCall with
        | .ok text => text
        | .attrError e =>
            "LLM call failed (" ++ e ++ "); using rule-based advice instead."
        | .err e =>
            "LLM call failed (" ++ e ++ "); using rule-based advice instead."

/-- The success outcome of the adapter's call chain, `none` when every
avenue fails (missing key, import error, failed calls). -/
def llmOutcome (env : LlmEnv) : Option String :=
  if env.apiKey = "" then none
  else
    match env.importExc with
    | some _ => none
    | none =>
      match env.modernCall with
      | .ok text => some text
      | .err _ => none
      | .attrError _ =>
        match env.legacyCall with
        | .ok text => some text
        | _ => none

/-- One row of the aviation maintenance-aide frame of
`4_Aviation_Twin_and_GenAI.py`. -/
structure AvSample where
  engine_vibration : Rat
  egt : Rat
  fault_code : String
deriving DecidableEq, Repr

/-- Findings and actions of the aviation and healthcare aides (no
time-to-attention there). -/
structure AideResult where
  risk : List String
  actions : List String
deriving DecidableEq, Repr

/-- The aviation heuristic assessment (lines 91-108): trailing-12 means of
vibration and EGT, trailing-12 existence check for fault `E42`, sequential
appends, and a no-anomaly pair when nothing fired. -/
def aviationAssess (df : List AvSample) : AideResult :=
  let avg_vib := meanTail 12 (df.map (fun s => s.engine_vibration))
  let avg_egt := meanTail 12 (df.map (fun s => s.egt))
  let has_fault := (tailN 12 (df.map (fun s => s.fault_code))).contains "E42"
  let a0 : AideResult := ⟨[], []⟩
  let a1 :=
    if optGt avg_vib 7 then
      ⟨a0.risk ++ ["Vibration high – potential fan/LP spool imbalance."],
       a0.actions ++ ["Run borescope if persists; balance check on next ground slot."]⟩
    else a0
  let a2 :=
    if optGt avg_egt 620 then
      ⟨a1.risk ++ ["EGT trending hot – check bleed/FADEC trims."],
       a1.actions ++ ["Verify cooling/bleed; calibrate sensors in line with MEL."]⟩
    else a1
  let a3 :=
    if has_fault then
      ⟨a2.risk ++ ["Fault E42 observed – transient drive anomaly."],
       a2.actions ++ ["Pull quick access recorder; inspect harness/connector."]⟩
    else a2
  if a3.risk.isEmpty then
    ⟨["No critical anomaly in last hour."],
     ["Continue normal ops; set alert thresholds Vib>7.0, EGT>620°C."]⟩
  else a3

/-- One row of the healthcare MRI frame of `5_Healthcare_Twin_and_GenAI.py`. -/
structure HcSample where
  magnet_temp : Rat
  helium_level : Rat
  fault_code : String
deriving DecidableEq, Repr

/-- The healthcare heuristic assessment (lines 84-101): trailing-18 means of
magnet temperature (rule fires above 4.6) and helium level (rule fires below
75), trailing-18 existence check for `CRYO_WARN`, sequential appends, and a
no-anomaly pair when nothing fired. -/
def healthcareAssess (df : List HcSample) : AideResult :=
  let avg_temp := meanTail 18 (df.map (fun s => s.magnet_temp))
  let avg_he := meanTail 18 (df.map (fun s => s.helium_level))
  let has_fault := (tailN 18 (df.map (fun s => s.fault_code))).contains "CRYO_WARN"
  let a0 : AideResult := ⟨[], []⟩
  let a1 :=
    if optGt avg_temp (46/10) then
      ⟨a0.risk ++ ["Magnet temp trending high (cooling efficiency risk)."],
       a0.actions ++ ["Check cryo-cooler and room HVAC; inspect chiller loop."]⟩
    else a0
  let a2 :=
    if optLt avg_he 75 then
      ⟨a1.risk ++ ["Helium level trending low (quench risk if ignored)."],
       a1.actions ++ ["Plan top-up; verify boil-off rate and seals."]⟩
    else a1
  let a3 :=
    if has_fault then
      ⟨a2.risk ++ ["CRYO_WARN observed – intermittent cryo warning."],
       a2.actions ++ ["Run OEM diagnostics; validate sensor calibration."]⟩
    else a2
  if a3.risk.isEmpty then
    ⟨["No critical anomaly in last 90 minutes."],
     ["Continue monitoring; alerts at Temp>4.6 K, He<75%."]⟩
  else a3

/-! ### Helper lemmas -/

theorem foldl_max_le_init (l : List Sample) (a : Int) :
    a ≤ l.foldl (fun m x => max m x.timestamp) a := by
  induction l generalizing a with
  | nil => exact le_refl a
  | cons x xs ih => exact le_trans (le_max_left a x.timestamp) (ih (max a x.timestamp))

theorem mem_le_foldl_max (l : List Sample) (a : Int) :
    ∀ x ∈ l, x.timestamp ≤ l.foldl (fun m y => max m y.timestamp) a := by
  induction l generalizing a with
  | nil => intro x hx; cases hx
  | cons y ys ih =>
    intro x hx
    rcases List.mem_cons.mp hx with h1 | hmem
    · subst h1
      exact le_trans (le_max_right a x.timestamp) (foldl_max_le_init ys (max a x.timestamp))
    · exact ih (max a y.timestamp) x hmem

/-- The maximum timestamp bounds every sample's timestamp from above. -/
theorem maxTimestamp_is_ub (samples : List Sample) (e : Int)
    (h : maxTimestamp samples = some e) : ∀ x ∈ samples, x.timestamp ≤ e := by
  cases samples with
  | nil => cases h
  | cons s rest =>
    intro x hx
    have he : rest.foldl (fun m y => max m y.timestamp) s.timestamp = e := by
      simpa [maxTimestamp] using h
    rcases List.mem_cons.mp hx with h1 | hmem
    · subst h1; exact he ▸ foldl_max_le_init rest x.timestamp
    · exact he ▸ mem_le_foldl_max rest s.timestamp x hmem

theorem foldl_max_attained (l : List Sample) (a : Int) :
    l.foldl (fun m y => max m y.timestamp) a = a ∨
      ∃ x ∈ l, l.foldl (fun m y => max m y.timestamp) a = x.timestamp := by
  induction l generalizing a with
  | nil => exact Or.inl rfl
  | cons y ys ih =>
    rcases ih (max a y.timestamp) with h | ⟨x, hx, hh⟩
    · rcases max_choice a y.timestamp with hm | hm
      · exact Or.inl (by simpa [hm] using h)
      · exact Or.inr ⟨y, List.mem_cons_self y ys, by simpa [hm] using h⟩
    · exact Or.inr ⟨x, List.mem_cons_of_mem y hx, hh⟩

/-- The maximum timestamp is attained by one of the samples. -/
theorem maxTimestamp_attained (samples : List Sample) (e : Int)
    (h : maxTimestamp samples = some e) : ∃ x ∈ samples, x.timestamp = e := by
  cases samples with
  | nil => cases h
  | cons s rest =>
    have he : rest.foldl (fun m y => max m y.timestamp) s.timestamp = e := by
      simpa [maxTimestamp] using h
    rcases foldl_max_attained rest s.timestamp with h0 | ⟨x, hx, hh⟩
    · exact ⟨s, List.mem_cons_self s rest, by rw [← he, h0]⟩
    · exact ⟨x, List.mem_cons_of_mem s hx, by rw [← he, hh]⟩

/-- Boolean `contains` agrees with list membership for strings. -/
theorem contains_iff_mem (l : List String) (a : String) :
    l.contains a = true ↔ a ∈ l :=
  List.elem_iff

/-- The collection loop of `make_concise` keeps exactly the first three
bulleted lines (given that fewer than three are already kept). -/
theorem collectBullets_eq (l : List (List Char)) (keep : List (List Char))
    (h : keep.length < 3) :
    collectBullets l keep = (keep ++ l.filter isBulletL).take 3 := by
  induction l generalizing keep with
  | nil =>
    simp only [collectBullets, List.filter_nil, List.append_nil]
    exact (List.take_of_length_le (le_of_lt h)).symm
  | cons x rest ih =>
    simp only [collectBullets]
    by_cases hb : isBulletL x
    · have hin : (if isBulletL x = true then keep ++ [x] else keep) = keep ++ [x] :=
        if_pos hb
      rw [hin, List.filter_cons_of_pos hb]
      by_cases h3 : (keep ++ [x]).length = 3
      · rw [if_pos h3]
        have hsplit : keep ++ x :: rest.filter isBulletL
            = (keep ++ [x]) ++ rest.filter isBulletL := by simp
        rw [hsplit, ← h3, List.take_left]
      · rw [if_neg h3]
        have hlt : (keep ++ [x]).length < 3 := by
          simp only [List.length_append, List.length_singleton] at h3 ⊢
          omega
        rw [ih (keep ++ [x]) hlt]
        simp
    · have hin : (if isBulletL x = true then keep ++ [x] else keep) = keep :=
        if_neg (by simp [hb])
      rw [hin, if_neg (by omega), ih keep h, List.filter_cons_of_neg hb]

example : make_concise ("x\n - a\nb\n- c") = "**Top-line Summary**\n - a\n- c" := by
  decide

/-! ### Claims -/

/-- C1: when both the vibration rule (trailing-20 vibration mean > 7.0) and
the temperature rule (trailing-20 temperature mean > 85) fire, the
time-to-attention is the vibration rule's message: the temperature rule
only writes `eta` when it is still the `"N/A"` default, so the first firing
rule with a non-default time-to-attention wins and is never overwritten. -/
theorem C1_first_match_time_to_attention (w : List Sample)
    (hv : optGt (meanTail 20 (w.map (fun s => s.vibration))) 7 = true)
    (ht : optGt (meanTail 20 (w.map (fun s => s.temperature))) 85 = true) :
    (adviceCore w).eta = "Likely failure within 3–5 days if untreated." := by
  cases hc : (w.map (fun s => s.error_code)).contains "E42" <;>
    simp only [adviceCore, hv, ht, hc] <;> simp

theorem C1_first_match_time_to_attention_witness :
    optGt (meanTail 20 (([⟨0, 2, 8, 90, "OK"⟩] : List Sample).map
        (fun s => s.vibration))) 7 = true
    ∧ optGt (meanTail 20 (([⟨0, 2, 8, 90, "OK"⟩] : List Sample).map
        (fun s => s.temperature))) 85 = true
    ∧ (adviceCore [⟨0, 2, 8, 90, "OK"⟩]).eta =
        "Likely failure within 3–5 days if untreated." := by
  refine ⟨by norm_num [optGt, meanTail, tailN], by norm_num [optGt, meanTail, tailN], ?_⟩
  exact C1_first_match_time_to_attention [⟨0, 2, 8, 90, "OK"⟩]
    (by norm_num [optGt, meanTail, tailN]) (by norm_num [optGt, meanTail, tailN])

/-- C3: on the empty observation window rule evaluation returns exactly the
canonical "no anomaly" Assessment — the empty-window aggregates make every
threshold rule evaluate false, the single no-critical-anomalies finding and
its paired action are the only entries, the time-to-attention is the
"No imminent failure indicated." sentinel, and no error is possible (the
function is total). -/
theorem C3_empty_window_no_anomaly :
    ∀ p : String,
      adviceCore [] =
        ⟨["No critical anomalies in the window."],
         ["Continue normal monitoring; set alert thresholds Vib>7, Temp>85°C."],
         "No imminent failure indicated."⟩
      ∧ rule_based_advice [] p =
          "**Assessment**\n- No critical anomalies in the window."
            ++ "\n\n**Recommended Actions (next 24–48h)**\n- "
            ++ "Continue normal monitoring; set alert thresholds Vib>7, Temp>85°C."
            ++ "\n\n**Estimated Time-to-Attention**: No imminent failure indicated."
            ++ "\n\n**Notes**: Capture fix as a reusable component and add to playbook." :=
  fun _ => ⟨rfl, rfl⟩

/-- C6: a window of 20 samples with trailing-20 vibration mean 7.5,
trailing-20 temperature mean 80 and no fault codes yields exactly one
finding (bearing wear/misalignment), exactly one action (reduce RPM), and
time-to-attention "Likely failure within 3–5 days if untreated." -/
theorem C6_vibration_only_scenario (w : List Sample)
    (hlen : w.length = 20)
    (hv : meanTail 20 (w.map (fun s => s.vibration)) = some (15/2))
    (ht : meanTail 20 (w.map (fun s => s.temperature)) = some 80)
    (hf : (w.map (fun s => s.error_code)).contains "E42" = false) :
    adviceCore w =
      ⟨["High vibration indicates possible bearing wear/misalignment."],
       ["Reduce RPM by 10%, schedule bearing inspection in 24–48h."],
       "Likely failure within 3–5 days if untreated."⟩ := by
  simp only [adviceCore, hv, ht, hf]
  norm_num [optGt]

theorem C6_vibration_only_scenario_witness :
    (List.replicate 20 (⟨0, 1, 15/2, 80, "OK"⟩ : Sample)).length = 20
    ∧ meanTail 20 ((List.replicate 20 (⟨0, 1, 15/2, 80, "OK"⟩ : Sample)).map
        (fun s => s.vibration)) = some (15/2)
    ∧ meanTail 20 ((List.replicate 20 (⟨0, 1, 15/2, 80, "OK"⟩ : Sample)).map
        (fun s => s.temperature)) = some 80
    ∧ ((List.replicate 20 (⟨0, 1, 15/2, 80, "OK"⟩ : Sample)).map
        (fun s => s.error_code)).contains "E42" = false
    ∧ adviceCore (List.replicate 20 (⟨0, 1, 15/2, 80, "OK"⟩ : Sample)) =
        ⟨["High vibration indicates possible bearing wear/misalignment."],
         ["Reduce RPM by 10%, schedule bearing inspection in 24–48h."],
         "Likely failure within 3–5 days if untreated."⟩ := by
  refine ⟨by simp, ?_, ?_, ?_, ?_⟩
  · simp [meanTail, tailN, List.map_replicate, List.sum_replicate]
    norm_num
  · simp [meanTail, tailN, List.map_replicate, List.sum_replicate]
    norm_num
  · simp [List.map_replicate]
  · exact C6_vibration_only_scenario _ (by simp)
      (by simp [meanTail, tailN, List.map_replicate, List.sum_replicate]; norm_num)
      (by simp [meanTail, tailN, List.map_replicate, List.sum_replicate]; norm_num)
      (by simp [List.map_replicate])

/-- C7: in every evaluation, across all three domain variants (engine,
aviation, healthcare), the number of risk findings equals the number of
recommended actions — every firing rule appends exactly one of each and the
no-anomaly branch appends exactly one of each. -/
theorem C7_findings_actions_parallel (w : List Sample) (wa : List AvSample)
    (wh : List HcSample) :
    (adviceCore w).risk.length = (adviceCore w).actions.length
    ∧ (aviationAssess wa).risk.length = (aviationAssess wa).actions.length
    ∧ (healthcareAssess wh).risk.length = (healthcareAssess wh).actions.length := by
  refine ⟨?_, ?_, ?_⟩
  · cases h1 : optGt (meanTail 20 (w.map (fun s => s.vibration))) 7 <;>
      cases h2 : optGt (meanTail 20 (w.map (fun s => s.temperature))) 85 <;>
      cases h3 : (w.map (fun s => s.error_code)).contains "E42" <;>
      simp only [adviceCore, h1, h2, h3] <;> simp
  · cases h1 : optGt (meanTail 12 (wa.map (fun s => s.engine_vibration))) 7 <;>
      cases h2 : optGt (meanTail 12 (wa.map (fun s => s.egt))) 620 <;>
      cases h3 : (tailN 12 (wa.map (fun s => s.fault_code))).contains "E42" <;>
      simp only [aviationAssess, h1, h2, h3] <;> simp
  · cases h1 : optGt (meanTail 18 (wh.map (fun s => s.magnet_temp))) (46/10) <;>
      cases h2 : optLt (meanTail 18 (wh.map (fun s => s.helium_level))) 75 <;>
      cases h3 : (tailN 18 (wh.map (fun s => s.fault_code))).contains "CRYO_WARN" <;>
      simp only [healthcareAssess, h1, h2, h3] <;> simp

/-- C9: rule evaluation is deterministic and depends on nothing but the
window contents — evaluating the same window twice, with any two issue
descriptions, yields byte-identical Assessment text. -/
theorem C9_deterministic_pure (w w2 : List Sample) (p q : String)
    (h : w = w2) :
    rule_based_advice w p = rule_based_advice w2 q := by
  subst h; rfl

theorem C9_deterministic_pure_witness :
    rule_based_advice [⟨0, 2, 8, 90, "OK"⟩] ("first run") =
      rule_based_advice [⟨0, 2, 8, 90, "OK"⟩] ("second run") :=
  C9_deterministic_pure [⟨0, 2, 8, 90, "OK"⟩] [⟨0, 2, 8, 90, "OK"⟩]
    ("first run") ("second run") rfl

/-- C10: when only the fault-code rule fires (vibration and temperature
rules do not, the fault token is present), the time-to-attention stays at
the default "N/A" sentinel — the fault rule sets no estimate, and the
"No imminent failure indicated." sentinel is reserved for the case where no
rule at all fires. -/
theorem C10_fault_only_keeps_default_eta (w : List Sample)
    (hv : optGt (meanTail 20 (w.map (fun s => s.vibration))) 7 = false)
    (ht : optGt (meanTail 20 (w.map (fun s => s.temperature))) 85 = false)
    (hf : (w.map (fun s => s.error_code)).contains "E42" = true) :
    (adviceCore w).eta = "N/A" := by
  simp only [adviceCore, hv, ht, hf]
  simp

/-- C4 counterexample: the claim says condensation falls back to the first
3 non-empty lines whenever FEWER THAN 3 bulleted lines exist, but on the
text `"a\n- b"` (one bulleted line) the code keeps that single bullet and
does not fall back, so the code's output differs from the claimed one. -/
theorem C4_condense_counterexample :
    make_concise ("a\n- b") = "**Top-line Summary**\n- b"
    ∧ specCondense ("a\n- b") = "**Top-line Summary**\na\n- b"
    ∧ make_concise ("a\n- b") ≠ specCondense ("a\n- b") := by
  decide

/-- C4 (amended): condensation is total and, for every input text, returns
the fixed "Top-line Summary" heading followed by the first 3 lines that
start with a bullet marker; it falls back to the first 3 non-empty lines
only when NO bulleted line exists; on empty input it returns the heading
with no bullets and never raises. -/
theorem C4_condense_first_bullets (text : String) :
    make_concise text =
      "**Top-line Summary**\n" ++ String.intercalate ("\n")
        ((if ((nonEmptyLines text).filter isBulletL).isEmpty
          then (nonEmptyLines text).take 3
          else ((nonEmptyLines text).filter isBulletL).take 3).map String.mk)
    ∧ make_concise ("") = "**Top-line Summary**\n" := by
  constructor
  · simp only [make_concise]
    rw [collectBullets_eq (nonEmptyLines text) [] (by norm_num)]
    simp only [List.nil_append]
    cases hf : (nonEmptyLines text).filter isBulletL with
    | nil => simp
    | cons a as => simp [hf]
  · decide

/-- C5 counterexample: in the engine page the fault check is
`"E42" in df_slice["error_code"].values` over the WHOLE window, not a
trailing slice: on a 51-sample window whose only `E42` is the oldest
sample (outside the trailing 50), the rule still fires although the token
is absent from the trailing slice. -/
theorem C5_fault_check_counterexample :
    ("Repeat fault E42 (drive anomaly)." ∈
        (adviceCore (⟨0, 1, 0, 0, "E42"⟩ :: List.replicate 50 ⟨0, 1, 0, 0, "OK"⟩)).risk)
    ∧ ¬ ("E42" ∈ tailN 50 ((⟨0, 1, 0, 0, "E42"⟩ :: List.replicate 50
          (⟨0, 1, 0, 0, "OK"⟩ : Sample)).map (fun s => s.error_code))) := by
  constructor
  · have hmapv : ((⟨0, 1, 0, 0, "E42"⟩ :: List.replicate 50
        (⟨0, 1, 0, 0, "OK"⟩ : Sample)).map (fun s => s.vibration))
        = List.replicate 51 (0 : Rat) := by
      simp [List.map_replicate, ← List.replicate_succ]
    have hmapt : ((⟨0, 1, 0, 0, "E42"⟩ :: List.replicate 50
        (⟨0, 1, 0, 0, "OK"⟩ : Sample)).map (fun s => s.temperature))
        = List.replicate 51 (0 : Rat) := by
      simp [List.map_replicate, ← List.replicate_succ]
    have hzero : optGt (meanTail 20 (List.replicate 51 (0 : Rat))) 7 = false := by
      simp [meanTail, tailN, optGt, List.drop_replicate, List.sum_replicate]
    have hzero85 : optGt (meanTail 20 (List.replicate 51 (0 : Rat))) 85 = false := by
      simp [meanTail, tailN, optGt, List.drop_replicate, List.sum_replicate]
    have hc : ((⟨0, 1, 0, 0, "E42"⟩ :: List.replicate 50
        (⟨0, 1, 0, 0, "OK"⟩ : Sample)).map (fun s => s.error_code)).contains "E42"
        = true := by
      simp
    simp only [adviceCore, hmapv, hmapt, hzero, hzero85, hc]
    simp
  · simp only [tailN]
    simp [List.map_replicate, List.mem_replicate]

/-- C5 (amended): the fault-code rule fires if and only if the fault token
appears in the slice the page inspects — for the engine page that slice is
the ENTIRE window (an existence check, not a mean), while the aviation page
checks the trailing 12 samples. -/
theorem C5_fault_existence_check (w : List Sample) (wa : List AvSample) :
    ("Repeat fault E42 (drive anomaly)." ∈ (adviceCore w).risk ↔
        "E42" ∈ w.map (fun s => s.error_code))
    ∧ ("Fault E42 observed – transient drive anomaly." ∈ (aviationAssess wa).risk ↔
        "E42" ∈ tailN 12 (wa.map (fun s => s.fault_code))) := by
  constructor
  · rw [← contains_iff_mem (w.map (fun s => s.error_code)) ("E42")]
    cases h1 : optGt (meanTail 20 (w.map (fun s => s.vibration))) 7 <;>
      cases h2 : optGt (meanTail 20 (w.map (fun s => s.temperature))) 85 <;>
      cases h3 : (w.map (fun s => s.error_code)).contains "E42" <;>
      simp only [adviceCore, h1, h2, h3] <;> simp
  · rw [← contains_iff_mem (tailN 12 (wa.map (fun s => s.fault_code))) ("E42")]
    cases h1 : optGt (meanTail 12 (wa.map (fun s => s.engine_vibration))) 7 <;>
      cases h2 : optGt (meanTail 12 (wa.map (fun s => s.egt))) 620 <;>
      cases h3 : (tailN 12 (wa.map (fun s => s.fault_code))).contains "E42" <;>
      simp only [aviationAssess, h1, h2, h3] <;> simp

/-- C8: windowing returns exactly the samples whose timestamp lies in
`[latest - duration, latest]` where `latest` is the maximum timestamp
present; if the duration covers the whole span of the data it returns all
samples; it never errors, and an empty source sequence yields an empty
window. -/
theorem C8_windowing (samples : List Sample) (d : Int) :
    (∀ e, maxTimestamp samples = some e →
        window_df samples d = samples.filter (fun s =>
          decide (e - d ≤ s.timestamp) && decide (s.timestamp ≤ e)))
    ∧ ((∀ s1 ∈ samples, ∀ s2 ∈ samples, s1.timestamp - s2.timestamp ≤ d) →
        window_df samples d = samples)
    ∧ window_df [] d = [] := by
  refine ⟨?_, ?_, rfl⟩
  · intro e he
    simp only [window_df, he]
  · intro hspan
    cases hm : maxTimestamp samples with
    | none =>
      cases samples with
      | nil => rfl
      | cons s rest => simp [maxTimestamp] at hm
    | some e =>
      obtain ⟨s0, hs0mem, hs0⟩ := maxTimestamp_attained samples e hm
      simp only [window_df, hm]
      apply List.filter_eq_self.mpr
      intro a ha
      have h1 := maxTimestamp_is_ub samples e hm a ha
      have h2 := hspan s0 hs0mem a ha
      simp only [Bool.and_eq_true, decide_eq_true_eq]
      omega

theorem C8_windowing_witness :
    (∀ s1 ∈ ([⟨0, 1, 0, 0, "OK"⟩, ⟨10, 1, 0, 0, "OK"⟩] : List Sample),
      ∀ s2 ∈ ([⟨0, 1, 0, 0, "OK"⟩, ⟨10, 1, 0, 0, "OK"⟩] : List Sample),
        s1.timestamp - s2.timestamp ≤ 60)
    ∧ window_df [⟨0, 1, 0, 0, "OK"⟩, ⟨10, 1, 0, 0, "OK"⟩] 60 =
        [⟨0, 1, 0, 0, "OK"⟩, ⟨10, 1, 0, 0, "OK"⟩] := by
  refine ⟨by decide, ?_⟩
  exact (C8_windowing [⟨0, 1, 0, 0, "OK"⟩, ⟨10, 1, 0, 0, "OK"⟩] 60).2.1 (by decide)

/-- C2: the external-generator adapter never raises — for every
environment, description and window, a missing credential returns the fixed
fallback notice, a successful call chain returns the generated text, and
any exception along the chain (import, either call shape, response access)
is converted into the "LLM call failed" fallback text instead of
propagating, so the caller always receives usable text. -/
theorem C2_adapter_never_raises (env : LlmEnv) (p : String) (s : List Sample) :
    (env.apiKey = "" →
      llm_advice env p s = "OpenAI key not configured; using rule-based advice instead.")
    ∧ (∀ t, llmOutcome env = some t → llm_advice env p s = t)
    ∧ (env.apiKey ≠ "" → llmOutcome env = none →
        ∃ e, llm_advice env p s =
          "LLM call failed (" ++ e ++ "); using rule-based advice instead.") := by
  obtain ⟨k, ie, mc, lc⟩ := env
  refine ⟨?_, ?_, ?_⟩
  · intro hk
    have hk2 : k = "" := hk
    subst hk2
    simp [llm_advice]
  · intro t ht
    by_cases hk : k = "" <;> cases ie <;> cases mc <;> cases lc <;>
      simp_all [llm_advice, llmOutcome]
  · intro hk h0
    cases ie with
    | some e => exact ⟨e, by simp [llm_advice, hk]⟩
    | none =>
      cases mc with
      | ok txt => simp [llmOutcome, hk] at h0
      | err e => exact ⟨e, by simp [llm_advice, hk]⟩
      | attrError e1 =>
        cases lc with
        | ok txt => simp [llmOutcome, hk] at h0
        | attrError e => exact ⟨e, by simp [llm_advice, hk]⟩
        | err e => exact ⟨e, by simp [llm_advice, hk]⟩

theorem C2_adapter_never_raises_witness :
    ((⟨"", none, CallResult.err ("boom"), CallResult.ok ("t")⟩ : LlmEnv).apiKey = ""
      → llm_advice ⟨"", none, CallResult.err ("boom"), CallResult.ok ("t")⟩ ("issue") []
          = "OpenAI key not configured; using rule-based advice instead.")
    ∧ llm_advice ⟨"", none, CallResult.err ("boom"), CallResult.ok ("t")⟩ ("issue") []
        = "OpenAI key not configured; using rule-based advice instead." := by
  refine ⟨?_, ?_⟩
  · exact (C2_adapter_never_raises ⟨"", none, CallResult.err ("boom"),
      CallResult.ok ("t")⟩ ("issue") []).1
  · exact (C2_adapter_never_raises ⟨"", none, CallResult.err ("boom"),
      CallResult.ok ("t")⟩ ("issue") []).1 rfl

theorem C10_fault_only_keeps_default_eta_witness :
    optGt (meanTail 20 (([⟨0, 1, 0, 0, "E42"⟩] : List Sample).map
        (fun s => s.vibration))) 7 = false
    ∧ optGt (meanTail 20 (([⟨0, 1, 0, 0, "E42"⟩] : List Sample).map
        (fun s => s.temperature))) 85 = false
    ∧ (([⟨0, 1, 0, 0, "E42"⟩] : List Sample).map
        (fun s => s.error_code)).contains "E42" = true
    ∧ (adviceCore [⟨0, 1, 0, 0, "E42"⟩]).eta = "N/A" := by
  refine ⟨by norm_num [optGt, meanTail, tailN], by norm_num [optGt, meanTail, tailN],
    by simp, ?_⟩
  exact C10_fault_only_keeps_default_eta [⟨0, 1, 0, 0, "E42"⟩]
    (by norm_num [optGt, meanTail, tailN]) (by norm_num [optGt, meanTail, tailN])
    (by simp)
